import Mathlib

/-!
Shallow embedding of `src/ldap/apr_ldap_init.c` (apr-util LDAP toolkit
abstraction layer) and verification of its specification.

The C file is a sequence of toolkit-specific blocks selected by
preprocessor macros.  The embedding makes the build configuration an
explicit value (`BuildConfig`): exactly one vendor toolkit is active, and
each capability macro of the source becomes a boolean field.  Native
toolkit calls are modelled by an environment (`Env`) giving the return
value of each native entry point, and every function additionally returns
the trace of native calls it performed, plus the conceptual process-wide
trust-store state that the Novell client init / deinit pair manipulates.

The `apr_ldap_err_t` record is allocated with `apr_pcalloc`, so all its
fields start zeroed: `rc = 0`, `msg = NULL`, `reason = NULL`.
-/

set_option linter.unusedVariables false

/-- vendor toolkit active at build time: exactly one of the
`APR_HAS_*_LDAPSDK` macros of the source.  The Netscape block of
`apr_ldap_ssl_init` is guarded in the source by `APR_HAS_NETSCAPE_LDAPSK`
(sic) while `apr_ldap_init` uses `APR_HAS_NETSCAPE_LDAPSDK`; both are
modelled as selection of the Netscape SDK. -/
inductive Toolkit where
  | netscape
  | novell
  | openldap
  | microsoft
  | solaris
  | other
deriving DecidableEq, Repr

/-- build configuration: the preprocessor macros the source tests. -/
structure BuildConfig where
  /-- `APR_HAS_LDAP_SSL`: compiled with ssl support. -/
  hasLdapSsl : Bool
  /-- which `APR_HAS_*_LDAPSDK` macro is set. -/
  toolkit : Toolkit
  /-- `APR_HAS_LDAP_SSL_CLIENT_INIT` (Netscape block). -/
  netscapeHasSslClientInit : Bool
  /-- `APR_HAS_LDAPSSL_CLIENT_INIT` (Novell block). -/
  novellHasClientInit : Bool
  /-- `APR_HAS_LDAPSSL_ADD_TRUSTED_CERT` (Novell block). -/
  novellHasAddTrustedCert : Bool
  /-- `APR_HAS_LDAPSSL_CLIENT_DEINIT` (Novell block and `apr_ldap_ssl_deinit`). -/
  novellHasClientDeinit : Bool
  /-- `LDAP_OPT_X_TLS_CACERTFILE` defined (OpenLDAP block of `apr_ldap_ssl_init`). -/
  openldapHasCacertfileOpt : Bool
  /-- `APR_HAS_LDAPSSL_INIT` (Novell/Netscape block of `apr_ldap_init`). -/
  hasLdapsslInitFn : Bool
  /-- `LDAP_OPT_X_TLS` defined (OpenLDAP block of `apr_ldap_init`). -/
  openldapHasOptXTls : Bool
  /-- `APR_HAS_LDAP_SSLINIT` (Microsoft block of `apr_ldap_init`). -/
  microsoftHasSslinitFn : Bool
deriving DecidableEq, Repr

/-- `LDAP_SUCCESS` of the LDAP C API. -/
def LDAP_SUCCESS : Int := 0

/-- `APR_SUCCESS` of `apr_errno.h`. -/
def APR_SUCCESS : Int := 0

/-- `APR_EGENERAL` = `APR_OS_START_ERROR + 14` of `apr_errno.h`;
only its distinctness from the other status values matters here. -/
def APR_EGENERAL : Int := 20014

/-- `APR_ENOTIMPL` = `APR_OS_START_ERROR + 23` of `apr_errno.h`. -/
def APR_ENOTIMPL : Int := 20023

/-- certificate type tag `APR_LDAP_CA_TYPE_DER` of `apr_ldap.h`
(the tags are only compared for equality). -/
def APR_LDAP_CA_TYPE_DER : Int := 1

/-- certificate type tag `APR_LDAP_CA_TYPE_BASE64`. -/
def APR_LDAP_CA_TYPE_BASE64 : Int := 2

/-- certificate type tag `APR_LDAP_CA_TYPE_CERT7_DB`. -/
def APR_LDAP_CA_TYPE_CERT7_DB : Int := 3

/-- Novell SDK file-type tag passed to `ldapssl_add_trusted_cert`;
opaque here, only its identity in the call trace matters. -/
def LDAPSSL_CERT_FILETYPE_B64 : Int := 1

/-- Novell SDK file-type tag for DER files. -/
def LDAPSSL_CERT_FILETYPE_DER : Int := 2

/-- the `apr_ldap_err_t` record; `apr_pcalloc` zeroes it, giving the
defaults below. -/
structure LdapErr where
  rc : Int := 0
  msg : Option String := none
  reason : Option String := none
deriving DecidableEq, Repr

/-- builds an `apr_ldap_err_t` value field by field. -/
def mkErr (rc : Int) (msg reason : Option String) : LdapErr :=
  { rc := rc, msg := msg, reason := reason }

/-- one native toolkit call, as recorded in the trace. -/
inductive NativeCall where
  | ldapsslClientInitCall (certfile : Option String)
  | ldapsslAddTrustedCertCall (certfile : String) (filetype : Int)
  | ldapsslClientDeinitCall
  | ldapSetOptionCacertCall (certfile : String)
  | ldapInitCall (hostname : String) (portno : Int)
  | ldapsslInitCall (hostname : String) (portno : Int) (secureFlag : Int)
  | ldapSslinitCall (hostname : String) (portno : Int) (secureFlag : Int)
  | ldapSetOptionTlsHardCall (handle : Nat)
  | ldapUnbindCall (handle : Nat)
deriving DecidableEq, Repr

/-- conceptual process-wide trust-store state (spec section 3), driven by
the Novell client init / trusted-cert add / client deinit calls — the only
native pair the source ever tears down. -/
inductive TrustState where
  | uninitialized
  | clientInitialized
  | certsLoaded (n : Nat)
deriving DecidableEq, Repr

/-- outcome of each native entry point, fixed by the surrounding
environment for one invocation. -/
structure Env where
  /-- return of `ldapssl_client_init(cert_auth_file, NULL)` (Netscape). -/
  netscapeClientInitRC : Int
  /-- return of `ldapssl_client_init(NULL, NULL)` (Novell). -/
  clientInitRC : Int
  /-- return of `ldapssl_add_trusted_cert`. -/
  addTrustedCertRC : Int
  /-- return of `ldap_set_option(NULL, LDAP_OPT_X_TLS_CACERTFILE, file)`. -/
  setOptionCacertRC : Int
  /-- handle produced by `ldap_init(hostname, portno)`, `none` for NULL. -/
  ldapInitHandle : Option Nat
  /-- handle produced by `ldapssl_init(hostname, portno, 1)`. -/
  ldapsslInitHandle : Option Nat
  /-- handle produced by `ldap_sslinit(hostname, portno, 1)`. -/
  ldapSslinitHandle : Option Nat
  /-- return of `ldap_set_option(ldap, LDAP_OPT_X_TLS, &SSLmode)`. -/
  setOptionTlsRC : Int
  /-- `apr_get_os_error()`. -/
  osError : Int
  /-- `ldap_err2string`. -/
  err2string : Int → String

/-- trust-store effect of a successful `ldapssl_add_trusted_cert`. -/
def addCert : TrustState → TrustState
  | TrustState.certsLoaded n => TrustState.certsLoaded (n + 1)
  | _ => TrustState.certsLoaded 1

/-- outcome of the variant-dispatch part of `apr_ldap_ssl_init`
(everything before the common tail at the end of the function). -/
structure SslBodyOut where
  result : LdapErr
  calls : List NativeCall
  state : TrustState
deriving DecidableEq, Repr

/-- builds an `SslBodyOut` value field by field. -/
def mkBody (result : LdapErr) (calls : List NativeCall) (state : TrustState) :
    SslBodyOut :=
  { result := result, calls := calls, state := state }

/-- the variant-specific body of `apr_ldap_ssl_init`
(`src/ldap/apr_ldap_init.c` lines 69-206), transcribed block by block. -/
def sslInitBody (cfg : BuildConfig) (env : Env) (st : TrustState)
    (cert_auth_file : Option String) (cert_file_type : Int) : SslBodyOut :=
  if cfg.hasLdapSsl then
    match cfg.toolkit with
    | Toolkit.netscape =>
      match cert_auth_file with
      | some file =>
        if cfg.netscapeHasSslClientInit then
          if cert_file_type = APR_LDAP_CA_TYPE_CERT7_DB then
            mkBody (mkErr env.netscapeClientInitRC none none)
              [NativeCall.ldapsslClientInitCall (some file)] st
          else
            mkBody (mkErr (-1) none
                (some "LDAP: Invalid certificate type: CERT7_DB type required"))
              [] st
        else
          mkBody (mkErr (-1) none
              (some ("LDAP: ldapssl_client_init() function not supported by " ++
                "this Netscape SDK. Certificate authority file not set")))
            [] st
      | none => mkBody (mkErr 0 none none) [] st
    | Toolkit.novell =>
      if cfg.novellHasClientInit && cfg.novellHasAddTrustedCert &&
          cfg.novellHasClientDeinit then
        let rc0 := env.clientInitRC
        if rc0 ≠ LDAP_SUCCESS then
          mkBody (mkErr rc0 (some (env.err2string rc0))
              (some "LDAP: Could not initialize SSL"))
            [NativeCall.ldapsslClientInitCall none] st
        else
          let st1 := if st = TrustState.uninitialized then TrustState.clientInitialized
            else st
          match cert_auth_file with
          | some file =>
            if cert_file_type = APR_LDAP_CA_TYPE_DER ∨
                cert_file_type = APR_LDAP_CA_TYPE_BASE64 then
              let ftype := if cert_file_type = APR_LDAP_CA_TYPE_BASE64
                then LDAPSSL_CERT_FILETYPE_B64 else LDAPSSL_CERT_FILETYPE_DER
              let rc1 := env.addTrustedCertRC
              if rc1 ≠ LDAP_SUCCESS then
                mkBody (mkErr rc1 none
                    (some ("LDAP: Invalid certificate or path: Could not " ++
                      "add trusted cert " ++ file)))
                  [NativeCall.ldapsslClientInitCall none,
                    NativeCall.ldapsslAddTrustedCertCall file ftype,
                    NativeCall.ldapsslClientDeinitCall]
                  TrustState.uninitialized
              else
                mkBody (mkErr rc1 none none)
                  [NativeCall.ldapsslClientInitCall none,
                    NativeCall.ldapsslAddTrustedCertCall file ftype]
                  (addCert st1)
            else
              mkBody (mkErr (-1) none
                  (some "LDAP: Invalid certificate type: DER or BASE64 type required"))
                [NativeCall.ldapsslClientInitCall none] st1
          | none =>
            mkBody (mkErr rc0 none none) [NativeCall.ldapsslClientInitCall none] st1
      else
        mkBody (mkErr (-1) none
            (some ("LDAP: ldapssl_client_init(), ldapssl_add_trusted_cert() or " ++
              "ldapssl_client_deinit() functions not supported by this Novell SDK. " ++
              "Certificate authority file not set")))
          [] st
    | Toolkit.openldap =>
      match cert_auth_file with
      | some file =>
        if cfg.openldapHasCacertfileOpt then
          if cert_file_type = APR_LDAP_CA_TYPE_BASE64 then
            mkBody (mkErr env.setOptionCacertRC none none)
              [NativeCall.ldapSetOptionCacertCall file] st
          else
            mkBody (mkErr (-1) none
                (some "LDAP: Invalid certificate type: BASE64 type required"))
              [] st
        else
          mkBody (mkErr (-1) none
              (some ("LDAP: LDAP_OPT_X_TLS_CACERTFILE not defined by this " ++
                "OpenLDAP SDK. Certificate authority file not set")))
            [] st
      | none => mkBody (mkErr 0 none none) [] st
    | Toolkit.microsoft =>
      mkBody (mkErr LDAP_SUCCESS none none) [] st
    | Toolkit.solaris =>
      match cert_auth_file with
      | some _ =>
        mkBody (mkErr (-1) none
            (some ("LDAP: Attempt to set certificate store failed. APR does " ++
              "not yet know how to set a certificate store on the Sun toolkit")))
          [] st
      | none => mkBody (mkErr 0 none none) [] st
    | Toolkit.other =>
      match cert_auth_file with
      | some _ =>
        mkBody (mkErr (-1) none
            (some ("LDAP: Attempt to set certificate store failed. Toolkit " ++
              "type not recognised by APR as supporting SSL")))
          [] st
      | none => mkBody (mkErr 0 none none) [] st
  else
    match cert_auth_file with
    | some _ =>
      mkBody (mkErr (-1) none
          (some ("LDAP: Attempt to set certificate store failed. Not built " ++
            "with SSL support")))
        [] st
    | none => mkBody (mkErr 0 none none) [] st

/-- outcome of `apr_ldap_ssl_init`: the `*result_err` record, the returned
status, the native-call trace, and the trust-store state after the call. -/
structure SslInitOut where
  result : LdapErr
  ret : Int
  calls : List NativeCall
  state : TrustState
deriving DecidableEq, Repr

/-- `apr_ldap_ssl_init` (lines 61-218): variant body followed by the common
tail that decodes `rc` into `msg` when `rc != -1` and maps `rc` to
`APR_SUCCESS` / `APR_EGENERAL`. -/
def apr_ldap_ssl_init (cfg : BuildConfig) (env : Env) (st : TrustState)
    (cert_auth_file : Option String) (cert_file_type : Int) : SslInitOut :=
  let b := sslInitBody cfg env st cert_auth_file cert_file_type
  let r1 := if b.result.rc ≠ -1
    then mkErr b.result.rc (some (env.err2string b.result.rc)) b.result.reason
    else b.result
  { result := r1,
    ret := if r1.rc ≠ LDAP_SUCCESS then APR_EGENERAL else APR_SUCCESS,
    calls := b.calls,
    state := b.state }

/-- outcome of `apr_ldap_ssl_deinit`. -/
structure DeinitOut where
  ret : Int
  state : TrustState
  calls : List NativeCall
deriving DecidableEq, Repr

/-- `apr_ldap_ssl_deinit` (lines 233-240): calls `ldapssl_client_deinit()`
when `APR_HAS_LDAP_SSL && APR_HAS_LDAPSSL_CLIENT_DEINIT`, and always
returns `APR_SUCCESS`. -/
def apr_ldap_ssl_deinit (cfg : BuildConfig) (st : TrustState) : DeinitOut :=
  if cfg.hasLdapSsl && cfg.novellHasClientDeinit then
    { ret := APR_SUCCESS, state := TrustState.uninitialized,
      calls := [NativeCall.ldapsslClientDeinitCall] }
  else
    { ret := APR_SUCCESS, state := st, calls := [] }

/-- control flow of the connection-opening part of `apr_ldap_init`:
either an early `return` statement fires, or control falls through to the
final NULL-handle check.  `handle` is the value of `*ldap` at that point;
on paths that never assign `*ldap` it is the value the caller left there. -/
inductive OpenPhaseOut where
  | early (ret : Int) (result : LdapErr) (handle : Option Nat) (calls : List NativeCall)
  | fallthru (result : LdapErr) (handle : Option Nat) (calls : List NativeCall)
deriving DecidableEq, Repr

/-- the branching part of `apr_ldap_init` (lines 265-330), before the final
NULL-handle check.  `ldap0` is the caller's initial value of `*ldap`. -/
def openPhase (cfg : BuildConfig) (env : Env) (ldap0 : Option Nat)
    (hostname : String) (portno : Int) (secure : Bool) : OpenPhaseOut :=
  if secure = false then
    OpenPhaseOut.fallthru (mkErr 0 none none) env.ldapInitHandle
      [NativeCall.ldapInitCall hostname portno]
  else
    if cfg.hasLdapSsl then
      match cfg.toolkit with
      | Toolkit.novell | Toolkit.netscape =>
        if cfg.hasLdapsslInitFn then
          OpenPhaseOut.fallthru (mkErr 0 none none) env.ldapsslInitHandle
            [NativeCall.ldapsslInitCall hostname portno 1]
        else
          OpenPhaseOut.early APR_ENOTIMPL
            (mkErr 0 none (some ("LDAP: SSL not yet supported by APR on this " ++
              "version of the Novell/Netscape toolkit"))) ldap0 []
      | Toolkit.openldap =>
        if cfg.openldapHasOptXTls then
          match env.ldapInitHandle with
          | some h =>
            let rc := env.setOptionTlsRC
            if rc ≠ LDAP_SUCCESS then
              OpenPhaseOut.early APR_EGENERAL
                (mkErr rc (some (env.err2string rc))
                  (some "LDAP: ldap_set_option - LDAP_OPT_X_TLS_HARD failed"))
                none
                [NativeCall.ldapInitCall hostname portno,
                  NativeCall.ldapSetOptionTlsHardCall h,
                  NativeCall.ldapUnbindCall h]
            else
              OpenPhaseOut.fallthru (mkErr rc none none) (some h)
                [NativeCall.ldapInitCall hostname portno,
                  NativeCall.ldapSetOptionTlsHardCall h]
          | none =>
            OpenPhaseOut.fallthru (mkErr 0 none none) none
              [NativeCall.ldapInitCall hostname portno]
        else
          OpenPhaseOut.early APR_ENOTIMPL
            (mkErr 0 none (some ("LDAP: SSL not yet supported by APR on this " ++
              "version of the OpenLDAP toolkit"))) ldap0 []
      | Toolkit.microsoft =>
        if cfg.microsoftHasSslinitFn then
          OpenPhaseOut.fallthru (mkErr 0 none none) env.ldapSslinitHandle
            [NativeCall.ldapSslinitCall hostname portno 1]
        else
          OpenPhaseOut.early APR_ENOTIMPL
            (mkErr 0 none (some ("LDAP: SSL not yet supported by APR on this " ++
              "version of the Microsoft toolkit"))) ldap0 []
      | Toolkit.solaris =>
        OpenPhaseOut.early APR_ENOTIMPL
          (mkErr 0 none (some ("LDAP: SSL not yet supported by APR on this " ++
            "version of the Sun toolkit"))) ldap0 []
      | Toolkit.other =>
        OpenPhaseOut.early APR_ENOTIMPL (mkErr 0 none none) ldap0 []
    else
      OpenPhaseOut.fallthru (mkErr 0 none none) ldap0 []

/-- outcome of `apr_ldap_init`: the `*result_err` record, the returned
status, the final value of `*ldap`, and the native-call trace. -/
structure LdapInitOut where
  result : LdapErr
  ret : Int
  handle : Option Nat
  calls : List NativeCall
deriving DecidableEq, Repr

/-- `apr_ldap_init` (lines 255-342): the open phase followed by the final
check returning `apr_get_os_error()` when `*ldap` is NULL, `APR_SUCCESS`
otherwise. -/
def apr_ldap_init (cfg : BuildConfig) (env : Env) (ldap0 : Option Nat)
    (hostname : String) (portno : Int) (secure : Bool) : LdapInitOut :=
  match openPhase cfg env ldap0 hostname portno secure with
  | OpenPhaseOut.early ret r h calls =>
    { result := r, ret := ret, handle := h, calls := calls }
  | OpenPhaseOut.fallthru r h calls =>
    match h with
    | none => { result := r, ret := env.osError, handle := none, calls := calls }
    | some hd => { result := r, ret := APR_SUCCESS, handle := some hd, calls := calls }

/-- the certificate encodings each variant's `apr_ldap_ssl_init` block
accepts (the equality tests of the source). -/
def acceptsCertType (tk : Toolkit) (t : Int) : Bool :=
  match tk with
  | Toolkit.netscape => t == APR_LDAP_CA_TYPE_CERT7_DB
  | Toolkit.novell => t == APR_LDAP_CA_TYPE_DER || t == APR_LDAP_CA_TYPE_BASE64
  | Toolkit.openldap => t == APR_LDAP_CA_TYPE_BASE64
  | _ => false

/-- the capability macros the active variant's certificate block needs in
order to reach its encoding check. -/
def certCapsPresent (cfg : BuildConfig) : Bool :=
  match cfg.toolkit with
  | Toolkit.netscape => cfg.netscapeHasSslClientInit
  | Toolkit.novell => cfg.novellHasClientInit && cfg.novellHasAddTrustedCert &&
      cfg.novellHasClientDeinit
  | Toolkit.openldap => cfg.openldapHasCacertfileOpt
  | _ => false

/-- the inputs on which `apr_ldap_init` takes one of its early `return`
statements (unsupported-operation paths and the OpenLDAP hard-TLS
mode-option failure) instead of reaching the final NULL-handle check. -/
def takesEarlyReturn (cfg : BuildConfig) (env : Env) (secure : Bool) : Bool :=
  secure && cfg.hasLdapSsl &&
    (match cfg.toolkit with
     | Toolkit.novell | Toolkit.netscape => !cfg.hasLdapsslInitFn
     | Toolkit.openldap => !cfg.openldapHasOptXTls ||
         (env.ldapInitHandle.isSome && !(env.setOptionTlsRC == LDAP_SUCCESS))
     | Toolkit.microsoft => !cfg.microsoftHasSslinitFn
     | Toolkit.solaris => true
     | Toolkit.other => true)

/-! Concrete build configurations and environments used in closed checks. -/

/-- a fully-capable build of the given toolkit. -/
def fullCfg (tk : Toolkit) : BuildConfig :=
  { hasLdapSsl := true, toolkit := tk, netscapeHasSslClientInit := true,
    novellHasClientInit := true, novellHasAddTrustedCert := true,
    novellHasClientDeinit := true, openldapHasCacertfileOpt := true,
    hasLdapsslInitFn := true, openldapHasOptXTls := true,
    microsoftHasSslinitFn := true }

/-- the same build with `APR_HAS_LDAP_SSL` undefined. -/
def noSslCfg (tk : Toolkit) : BuildConfig :=
  { fullCfg tk with hasLdapSsl := false }

/-- an environment where every native call succeeds. -/
def okEnv : Env :=
  { netscapeClientInitRC := 0, clientInitRC := 0, addTrustedCertRC := 0,
    setOptionCacertRC := 0, ldapInitHandle := some 5, ldapsslInitHandle := some 7,
    ldapSslinitHandle := some 9, setOptionTlsRC := 0, osError := 111,
    err2string := fun _ => "toolkit message" }

/-! Projection lemmas relating `apr_ldap_ssl_init` to its variant body. -/

/-- the common tail never changes the native-call trace. -/
theorem apr_ldap_ssl_init_calls_eq (cfg : BuildConfig) (env : Env) (st : TrustState)
    (f : Option String) (t : Int) :
    (apr_ldap_ssl_init cfg env st f t).calls = (sslInitBody cfg env st f t).calls := rfl

/-- the common tail never changes the trust-store state. -/
theorem apr_ldap_ssl_init_state_eq (cfg : BuildConfig) (env : Env) (st : TrustState)
    (f : Option String) (t : Int) :
    (apr_ldap_ssl_init cfg env st f t).state = (sslInitBody cfg env st f t).state := rfl

/-- the common tail never changes `rc`. -/
theorem apr_ldap_ssl_init_rc_eq (cfg : BuildConfig) (env : Env) (st : TrustState)
    (f : Option String) (t : Int) :
    (apr_ldap_ssl_init cfg env st f t).result.rc =
      (sslInitBody cfg env st f t).result.rc := by
  by_cases h : (sslInitBody cfg env st f t).result.rc = -1 <;>
    simp [apr_ldap_ssl_init, h, mkErr]

/-- the common tail never changes `reason`. -/
theorem apr_ldap_ssl_init_reason_eq (cfg : BuildConfig) (env : Env) (st : TrustState)
    (f : Option String) (t : Int) :
    (apr_ldap_ssl_init cfg env st f t).result.reason =
      (sslInitBody cfg env st f t).result.reason := by
  by_cases h : (sslInitBody cfg env st f t).result.rc = -1 <;>
    simp [apr_ldap_ssl_init, h, mkErr]

/-- the returned status is `APR_EGENERAL` exactly when the final `rc` is not
`LDAP_SUCCESS` (lines 212-216). -/
theorem apr_ldap_ssl_init_ret_eq (cfg : BuildConfig) (env : Env) (st : TrustState)
    (f : Option String) (t : Int) :
    (apr_ldap_ssl_init cfg env st f t).ret =
      if (sslInitBody cfg env st f t).result.rc ≠ LDAP_SUCCESS
      then APR_EGENERAL else APR_SUCCESS := by
  by_cases h : (sslInitBody cfg env st f t).result.rc = -1 <;>
    simp [apr_ldap_ssl_init, h, mkErr, LDAP_SUCCESS]

/-- the final `msg`: decoded from `rc` when `rc != -1` (lines 208-210),
otherwise whatever the body left there. -/
theorem apr_ldap_ssl_init_msg_eq (cfg : BuildConfig) (env : Env) (st : TrustState)
    (f : Option String) (t : Int) :
    (apr_ldap_ssl_init cfg env st f t).result.msg =
      if (sslInitBody cfg env st f t).result.rc ≠ -1
      then some (env.err2string (sslInitBody cfg env st f t).result.rc)
      else (sslInitBody cfg env st f t).result.msg := by
  by_cases h : (sslInitBody cfg env st f t).result.rc = -1 <;>
    simp [apr_ldap_ssl_init, h, mkErr]

/-- a `reason` set by the body always comes with a non-success `rc`:
every branch that writes `reason` also writes `-1` or a failing toolkit
code into `rc`. -/
theorem sslInitBody_reason_imp_fail (cfg : BuildConfig) (env : Env) (st : TrustState)
    (f : Option String) (t : Int) :
    ((sslInitBody cfg env st f t).result.reason).isSome = true →
    (sslInitBody cfg env st f t).result.rc ≠ LDAP_SUCCESS := by
  rcases cfg with ⟨ssl, tk, a1, a2, a3, a4, a5, a6, a7, a8⟩
  unfold sslInitBody
  cases ssl <;> cases tk <;> cases f <;>
    simp_all [mkBody, mkErr, LDAP_SUCCESS] <;>
    split_ifs <;> simp_all

/-- only the Novell block ever writes `msg` before the common tail
(line 100). -/
theorem sslInitBody_msg_novell_only (cfg : BuildConfig) (env : Env) (st : TrustState)
    (f : Option String) (t : Int) (h : cfg.toolkit ≠ Toolkit.novell) :
    (sslInitBody cfg env st f t).result.msg = none := by
  rcases cfg with ⟨ssl, tk, a1, a2, a3, a4, a5, a6, a7, a8⟩
  unfold sslInitBody
  cases ssl <;> cases tk <;> cases f <;>
    simp_all [mkBody, mkErr] <;> split_ifs <;> simp_all

/-- C1 (amended): on the SolarisStyle and Unrecognized variants of a build
compiled with SSL support, `apr_ldap_init` with `secure = true` returns
`APR_ENOTIMPL`, performs no native call, and leaves the `LDAP*`
out-parameter unchanged — in particular absent when it was absent on
entry.  (In a build without SSL support the secure branch is empty and the
call instead falls through to the final NULL-handle check; see the
counterexample.) -/
theorem apr_ldap_init_unsupported_secure (cfg : BuildConfig) (env : Env)
    (ldap0 : Option Nat) (hostname : String) (portno : Int)
    (hssl : cfg.hasLdapSsl = true)
    (htk : cfg.toolkit = Toolkit.solaris ∨ cfg.toolkit = Toolkit.other) :
    (apr_ldap_init cfg env ldap0 hostname portno true).ret = APR_ENOTIMPL ∧
    (apr_ldap_init cfg env ldap0 hostname portno true).handle = ldap0 ∧
    (apr_ldap_init cfg env ldap0 hostname portno true).calls = [] := by
  rcases htk with h | h <;>
    simp [apr_ldap_init, openPhase, hssl, h]

/-- C1 witness: a concrete SolarisStyle SSL build, secure connect with the
handle absent on entry. -/
theorem apr_ldap_init_unsupported_secure_witness :
    (fullCfg Toolkit.solaris).hasLdapSsl = true ∧
    ((apr_ldap_init (fullCfg Toolkit.solaris) okEnv none "ldap.example.org" 636
        true).ret = APR_ENOTIMPL ∧
      (apr_ldap_init (fullCfg Toolkit.solaris) okEnv none "ldap.example.org" 636
        true).handle = none ∧
      (apr_ldap_init (fullCfg Toolkit.solaris) okEnv none "ldap.example.org" 636
        true).calls = []) :=
  ⟨by decide,
    apr_ldap_init_unsupported_secure (fullCfg Toolkit.solaris) okEnv none
      "ldap.example.org" 636 (by decide) (Or.inl (by decide))⟩

/-- C1 counterexample: in a build without SSL support (`APR_HAS_LDAP_SSL`
undefined), the secure branch of `apr_ldap_init` is empty, so the call
falls through to the final NULL-handle check and returns
`apr_get_os_error()` (here 111), not `APR_ENOTIMPL` as the claim states
for "any build without SSL support". -/
theorem apr_ldap_init_nossl_secure_counterexample :
    (apr_ldap_init (noSslCfg Toolkit.openldap) okEnv none "ldap.example.org" 636
      true).ret = 111 ∧
    (apr_ldap_init (noSslCfg Toolkit.openldap) okEnv none "ldap.example.org" 636
      true).ret ≠ APR_ENOTIMPL := by
  refine ⟨by decide, by decide⟩

/-- C3: on the OpenLDAP variant, when the plain open succeeds and the
`LDAP_OPT_X_TLS_HARD` mode option fails, `apr_ldap_init` unbinds the
partially-open connection, nulls the handle, and returns `APR_EGENERAL`
(lines 284-298). -/
theorem apr_ldap_init_tls_hard_rollback (cfg : BuildConfig) (env : Env)
    (ldap0 : Option Nat) (hostname : String) (portno : Int) (h : Nat)
    (hssl : cfg.hasLdapSsl = true) (htk : cfg.toolkit = Toolkit.openldap)
    (hopt : cfg.openldapHasOptXTls = true)
    (hinit : env.ldapInitHandle = some h)
    (hfail : env.setOptionTlsRC ≠ LDAP_SUCCESS) :
    apr_ldap_init cfg env ldap0 hostname portno true =
      { result := mkErr env.setOptionTlsRC (some (env.err2string env.setOptionTlsRC))
          (some "LDAP: ldap_set_option - LDAP_OPT_X_TLS_HARD failed"),
        ret := APR_EGENERAL,
        handle := none,
        calls := [NativeCall.ldapInitCall hostname portno,
          NativeCall.ldapSetOptionTlsHardCall h,
          NativeCall.ldapUnbindCall h] } := by
  simp [apr_ldap_init, openPhase, hssl, htk, hopt, hinit, hfail]

/-- C3 witness: a concrete OpenLDAP SSL build where `ldap_init` yields
handle 5 and the mode option fails with toolkit code 2. -/
theorem apr_ldap_init_tls_hard_rollback_witness :
    ({ okEnv with setOptionTlsRC := 2 } : Env).setOptionTlsRC ≠ LDAP_SUCCESS ∧
    apr_ldap_init (fullCfg Toolkit.openldap) { okEnv with setOptionTlsRC := 2 }
        none "ldap.example.org" 636 true =
      { result := mkErr 2 (some "toolkit message")
          (some "LDAP: ldap_set_option - LDAP_OPT_X_TLS_HARD failed"),
        ret := APR_EGENERAL,
        handle := none,
        calls := [NativeCall.ldapInitCall "ldap.example.org" 636,
          NativeCall.ldapSetOptionTlsHardCall 5,
          NativeCall.ldapUnbindCall 5] } :=
  ⟨by decide,
    apr_ldap_init_tls_hard_rollback (fullCfg Toolkit.openldap)
      { okEnv with setOptionTlsRC := 2 } none "ldap.example.org" 636 5
      (by decide) (by decide) (by decide) (by simp [okEnv]) (by decide)⟩

/-- C4: on the Novell variant with a path present and an accepted encoding,
a failing `ldapssl_add_trusted_cert` is followed by `ldapssl_client_deinit`
before the failure is returned, and the trust-store state is back to
`Uninitialized` (lines 106-135). -/
theorem apr_ldap_ssl_init_novell_add_rollback (cfg : BuildConfig) (env : Env)
    (st : TrustState) (file : String) (t : Int)
    (hssl : cfg.hasLdapSsl = true) (htk : cfg.toolkit = Toolkit.novell)
    (hc1 : cfg.novellHasClientInit = true) (hc2 : cfg.novellHasAddTrustedCert = true)
    (hc3 : cfg.novellHasClientDeinit = true)
    (hinit : env.clientInitRC = LDAP_SUCCESS)
    (ht : t = APR_LDAP_CA_TYPE_DER ∨ t = APR_LDAP_CA_TYPE_BASE64)
    (hfail : env.addTrustedCertRC ≠ LDAP_SUCCESS) :
    (apr_ldap_ssl_init cfg env st (some file) t).state = TrustState.uninitialized ∧
    (apr_ldap_ssl_init cfg env st (some file) t).calls =
      [NativeCall.ldapsslClientInitCall none,
        NativeCall.ldapsslAddTrustedCertCall file
          (if t = APR_LDAP_CA_TYPE_BASE64 then LDAPSSL_CERT_FILETYPE_B64
            else LDAPSSL_CERT_FILETYPE_DER),
        NativeCall.ldapsslClientDeinitCall] ∧
    (apr_ldap_ssl_init cfg env st (some file) t).ret = APR_EGENERAL ∧
    (apr_ldap_ssl_init cfg env st (some file) t).result.rc = env.addTrustedCertRC ∧
    (apr_ldap_ssl_init cfg env st (some file) t).result.reason =
      some ("LDAP: Invalid certificate or path: Could not add trusted cert " ++ file) := by
  rw [apr_ldap_ssl_init_state_eq, apr_ldap_ssl_init_calls_eq, apr_ldap_ssl_init_ret_eq,
    apr_ldap_ssl_init_rc_eq, apr_ldap_ssl_init_reason_eq]
  simp only [sslInitBody, hssl, htk, hc1, hc2, hc3, hinit]
  simp only [LDAP_SUCCESS] at hfail
  simp [mkBody, mkErr, hfail, ht, LDAP_SUCCESS]

/-- C4 witness: a concrete fully-capable Novell build, BASE64 certificate,
trusted-cert add failing with toolkit code 7, starting from a loaded
store. -/
theorem apr_ldap_ssl_init_novell_add_rollback_witness :
    ({ okEnv with addTrustedCertRC := 7 } : Env).addTrustedCertRC ≠ LDAP_SUCCESS ∧
    ((apr_ldap_ssl_init (fullCfg Toolkit.novell) { okEnv with addTrustedCertRC := 7 }
        (TrustState.certsLoaded 1) (some "/ca.pem")
        APR_LDAP_CA_TYPE_BASE64).state = TrustState.uninitialized ∧
      (apr_ldap_ssl_init (fullCfg Toolkit.novell) { okEnv with addTrustedCertRC := 7 }
        (TrustState.certsLoaded 1) (some "/ca.pem")
        APR_LDAP_CA_TYPE_BASE64).calls =
        [NativeCall.ldapsslClientInitCall none,
          NativeCall.ldapsslAddTrustedCertCall "/ca.pem"
            (if APR_LDAP_CA_TYPE_BASE64 = APR_LDAP_CA_TYPE_BASE64
              then LDAPSSL_CERT_FILETYPE_B64 else LDAPSSL_CERT_FILETYPE_DER),
          NativeCall.ldapsslClientDeinitCall] ∧
      (apr_ldap_ssl_init (fullCfg Toolkit.novell) { okEnv with addTrustedCertRC := 7 }
        (TrustState.certsLoaded 1) (some "/ca.pem")
        APR_LDAP_CA_TYPE_BASE64).ret = APR_EGENERAL ∧
      (apr_ldap_ssl_init (fullCfg Toolkit.novell) { okEnv with addTrustedCertRC := 7 }
        (TrustState.certsLoaded 1) (some "/ca.pem")
        APR_LDAP_CA_TYPE_BASE64).result.rc =
        ({ okEnv with addTrustedCertRC := 7 } : Env).addTrustedCertRC ∧
      (apr_ldap_ssl_init (fullCfg Toolkit.novell) { okEnv with addTrustedCertRC := 7 }
        (TrustState.certsLoaded 1) (some "/ca.pem")
        APR_LDAP_CA_TYPE_BASE64).result.reason =
        some ("LDAP: Invalid certificate or path: Could not add trusted cert " ++
          "/ca.pem")) :=
  ⟨by decide,
    apr_ldap_ssl_init_novell_add_rollback (fullCfg Toolkit.novell)
      { okEnv with addTrustedCertRC := 7 } (TrustState.certsLoaded 1) "/ca.pem"
      APR_LDAP_CA_TYPE_BASE64 (by decide) (by decide) (by decide) (by decide)
      (by decide) (by decide) (Or.inr (by decide)) (by decide)⟩

/-- C2 (amended): with SSL compiled in and the variant's certificate-block
capability macros present, a path plus an encoding outside the variant's
accepted set yields `rc = -1`, the variant's "required encoding" reason and
`APR_EGENERAL`.  Netscape and OpenLDAP make no native call; Novell has
already made its unconditional `ldapssl_client_init(NULL, NULL)` call
(line 98) before the encoding check, so — provided that preliminary call
succeeded — exactly that one native call is in the trace and no
trusted-cert add is performed. -/
theorem apr_ldap_ssl_init_bad_encoding (cfg : BuildConfig) (env : Env)
    (st : TrustState) (file : String) (t : Int)
    (hssl : cfg.hasLdapSsl = true)
    (htk : cfg.toolkit = Toolkit.netscape ∨ cfg.toolkit = Toolkit.novell ∨
      cfg.toolkit = Toolkit.openldap)
    (hcap : certCapsPresent cfg = true)
    (henc : acceptsCertType cfg.toolkit t = false)
    (hnov : cfg.toolkit = Toolkit.novell → env.clientInitRC = LDAP_SUCCESS) :
    (apr_ldap_ssl_init cfg env st (some file) t).result.rc = -1 ∧
    (apr_ldap_ssl_init cfg env st (some file) t).ret = APR_EGENERAL ∧
    (apr_ldap_ssl_init cfg env st (some file) t).result.msg = none ∧
    (cfg.toolkit = Toolkit.netscape →
      (apr_ldap_ssl_init cfg env st (some file) t).result.reason =
        some "LDAP: Invalid certificate type: CERT7_DB type required" ∧
      (apr_ldap_ssl_init cfg env st (some file) t).calls = []) ∧
    (cfg.toolkit = Toolkit.novell →
      (apr_ldap_ssl_init cfg env st (some file) t).result.reason =
        some "LDAP: Invalid certificate type: DER or BASE64 type required" ∧
      (apr_ldap_ssl_init cfg env st (some file) t).calls =
        [NativeCall.ldapsslClientInitCall none]) ∧
    (cfg.toolkit = Toolkit.openldap →
      (apr_ldap_ssl_init cfg env st (some file) t).result.reason =
        some "LDAP: Invalid certificate type: BASE64 type required" ∧
      (apr_ldap_ssl_init cfg env st (some file) t).calls = []) := by
  rw [apr_ldap_ssl_init_rc_eq, apr_ldap_ssl_init_ret_eq, apr_ldap_ssl_init_msg_eq,
    apr_ldap_ssl_init_reason_eq, apr_ldap_ssl_init_calls_eq]
  rcases htk with h | h | h
  · simp only [certCapsPresent, h] at hcap
    simp only [acceptsCertType, h, beq_eq_false_iff_ne, ne_eq] at henc
    simp [sslInitBody, hssl, h, hcap, henc, mkBody, mkErr, LDAP_SUCCESS]
  · simp only [certCapsPresent, h] at hcap
    simp only [acceptsCertType, h, Bool.or_eq_false_iff, beq_eq_false_iff_ne,
      ne_eq] at henc
    have hci := hnov h
    simp only [LDAP_SUCCESS] at hci
    simp [sslInitBody, hssl, h, hcap, henc, hci, mkBody, mkErr, LDAP_SUCCESS]
  · simp only [certCapsPresent, h] at hcap
    simp only [acceptsCertType, h, beq_eq_false_iff_ne, ne_eq] at henc
    simp [sslInitBody, hssl, h, hcap, henc, mkBody, mkErr, LDAP_SUCCESS]

/-- C2 witness: a fully-capable OpenLDAP build given a CERT7_DB file. -/
theorem apr_ldap_ssl_init_bad_encoding_witness :
    (fullCfg Toolkit.openldap).hasLdapSsl = true ∧
    certCapsPresent (fullCfg Toolkit.openldap) = true ∧
    acceptsCertType (fullCfg Toolkit.openldap).toolkit APR_LDAP_CA_TYPE_CERT7_DB =
      false ∧
    ((apr_ldap_ssl_init (fullCfg Toolkit.openldap) okEnv TrustState.uninitialized
        (some "/ca.pem") APR_LDAP_CA_TYPE_CERT7_DB).result.rc = -1 ∧
      (apr_ldap_ssl_init (fullCfg Toolkit.openldap) okEnv TrustState.uninitialized
        (some "/ca.pem") APR_LDAP_CA_TYPE_CERT7_DB).ret = APR_EGENERAL ∧
      (apr_ldap_ssl_init (fullCfg Toolkit.openldap) okEnv TrustState.uninitialized
        (some "/ca.pem") APR_LDAP_CA_TYPE_CERT7_DB).result.msg = none ∧
      ((fullCfg Toolkit.openldap).toolkit = Toolkit.netscape →
        (apr_ldap_ssl_init (fullCfg Toolkit.openldap) okEnv TrustState.uninitialized
          (some "/ca.pem") APR_LDAP_CA_TYPE_CERT7_DB).result.reason =
          some "LDAP: Invalid certificate type: CERT7_DB type required" ∧
        (apr_ldap_ssl_init (fullCfg Toolkit.openldap) okEnv TrustState.uninitialized
          (some "/ca.pem") APR_LDAP_CA_TYPE_CERT7_DB).calls = []) ∧
      ((fullCfg Toolkit.openldap).toolkit = Toolkit.novell →
        (apr_ldap_ssl_init (fullCfg Toolkit.openldap) okEnv TrustState.uninitialized
          (some "/ca.pem") APR_LDAP_CA_TYPE_CERT7_DB).result.reason =
          some "LDAP: Invalid certificate type: DER or BASE64 type required" ∧
        (apr_ldap_ssl_init (fullCfg Toolkit.openldap) okEnv TrustState.uninitialized
          (some "/ca.pem") APR_LDAP_CA_TYPE_CERT7_DB).calls =
          [NativeCall.ldapsslClientInitCall none]) ∧
      ((fullCfg Toolkit.openldap).toolkit = Toolkit.openldap →
        (apr_ldap_ssl_init (fullCfg Toolkit.openldap) okEnv TrustState.uninitialized
          (some "/ca.pem") APR_LDAP_CA_TYPE_CERT7_DB).result.reason =
          some "LDAP: Invalid certificate type: BASE64 type required" ∧
        (apr_ldap_ssl_init (fullCfg Toolkit.openldap) okEnv TrustState.uninitialized
          (some "/ca.pem") APR_LDAP_CA_TYPE_CERT7_DB).calls = [])) :=
  ⟨by decide, by decide, by decide,
    apr_ldap_ssl_init_bad_encoding (fullCfg Toolkit.openldap) okEnv
      TrustState.uninitialized "/ca.pem" APR_LDAP_CA_TYPE_CERT7_DB (by decide)
      (Or.inr (Or.inr (by decide))) (by decide) (by decide) (by decide)⟩

/-- C2 counterexample: on the Novell variant the claim's "no native toolkit
call is made during that invocation" is false — the encoding-mismatch call
still performs the preliminary `ldapssl_client_init(NULL, NULL)` (line 98)
before the encoding is validated. -/
theorem apr_ldap_ssl_init_novell_precall_counterexample :
    (apr_ldap_ssl_init (fullCfg Toolkit.novell) okEnv TrustState.uninitialized
      (some "/ca.pem") APR_LDAP_CA_TYPE_CERT7_DB).result.rc = -1 ∧
    (apr_ldap_ssl_init (fullCfg Toolkit.novell) okEnv TrustState.uninitialized
      (some "/ca.pem") APR_LDAP_CA_TYPE_CERT7_DB).result.reason =
      some "LDAP: Invalid certificate type: DER or BASE64 type required" ∧
    (apr_ldap_ssl_init (fullCfg Toolkit.novell) okEnv TrustState.uninitialized
      (some "/ca.pem") APR_LDAP_CA_TYPE_CERT7_DB).calls ≠ [] :=
  ⟨by decide, by decide, by decide⟩

/-- C5 (amended): for every call, a set `reasonText` implies the call did
not cleanly succeed (returned `APR_EGENERAL`); whenever the final
`statusCode` is not the `-1` sentinel, `vendorMessage` decodes it; on the
success path `statusCode = LDAP_SUCCESS`, `vendorMessage` decodes it and
`reasonText` is absent.  The claim's "if and only if" fails in both
directions: a native-call failure can return `APR_EGENERAL` with no
`reasonText` (see the counterexample), and on the Novell client-init
failure path `msg` is set even if the toolkit code happens to be `-1`, so
the `vendorMessage`-iff-genuine-code part is provable only for the
non-Novell variants. -/
theorem apr_ldap_ssl_init_result_invariant (cfg : BuildConfig) (env : Env)
    (st : TrustState) (f : Option String) (t : Int) :
    ((apr_ldap_ssl_init cfg env st f t).result.reason.isSome = true →
      (apr_ldap_ssl_init cfg env st f t).ret = APR_EGENERAL) ∧
    ((apr_ldap_ssl_init cfg env st f t).result.rc ≠ -1 →
      (apr_ldap_ssl_init cfg env st f t).result.msg =
        some (env.err2string (apr_ldap_ssl_init cfg env st f t).result.rc)) ∧
    ((apr_ldap_ssl_init cfg env st f t).ret = APR_SUCCESS →
      (apr_ldap_ssl_init cfg env st f t).result.rc = LDAP_SUCCESS ∧
      (apr_ldap_ssl_init cfg env st f t).result.msg =
        some (env.err2string LDAP_SUCCESS) ∧
      (apr_ldap_ssl_init cfg env st f t).result.reason = none) ∧
    (cfg.toolkit ≠ Toolkit.novell →
      ((apr_ldap_ssl_init cfg env st f t).result.msg.isSome = true ↔
        (apr_ldap_ssl_init cfg env st f t).result.rc ≠ -1)) := by
  have hrc := apr_ldap_ssl_init_rc_eq cfg env st f t
  have hreason := apr_ldap_ssl_init_reason_eq cfg env st f t
  have hret := apr_ldap_ssl_init_ret_eq cfg env st f t
  have hmsg := apr_ldap_ssl_init_msg_eq cfg env st f t
  have hinv := sslInitBody_reason_imp_fail cfg env st f t
  refine ⟨?_, ?_, ?_, ?_⟩
  · intro h
    rw [hreason] at h
    rw [hret, if_pos (hinv h)]
  · intro h
    rw [hrc] at h
    rw [hrc, hmsg, if_pos h]
  · intro h
    rw [hret] at h
    split at h
    · exact absurd h (by decide)
    · rename_i hz
      rw [not_not] at hz
      have hne : (sslInitBody cfg env st f t).result.rc ≠ -1 := by
        rw [hz]; decide
      refine ⟨by rw [hrc]; exact hz, ?_, ?_⟩
      · rw [hmsg, if_pos hne, hz]
      · have hns : ¬ ((sslInitBody cfg env st f t).result.reason.isSome = true) :=
          fun hs => (hinv hs) hz
        rw [hreason]
        exact Option.not_isSome_iff_eq_none.mp hns
  · intro hn
    rw [hmsg, hrc, sslInitBody_msg_novell_only cfg env st f t hn]
    by_cases h : (sslInitBody cfg env st f t).result.rc = -1
    · simp [h]
    · simp [h]

/-- C5 witness: a successful OpenLDAP certificate call, exercising the
rc-not-sentinel branch of the invariant. -/
theorem apr_ldap_ssl_init_result_invariant_witness :
    (apr_ldap_ssl_init (fullCfg Toolkit.openldap) okEnv TrustState.uninitialized
      (some "/ca.pem") APR_LDAP_CA_TYPE_BASE64).result.rc ≠ -1 ∧
    (apr_ldap_ssl_init (fullCfg Toolkit.openldap) okEnv TrustState.uninitialized
      (some "/ca.pem") APR_LDAP_CA_TYPE_BASE64).result.msg =
      some (okEnv.err2string (apr_ldap_ssl_init (fullCfg Toolkit.openldap) okEnv
        TrustState.uninitialized (some "/ca.pem")
        APR_LDAP_CA_TYPE_BASE64).result.rc) :=
  ⟨by decide,
    (apr_ldap_ssl_init_result_invariant (fullCfg Toolkit.openldap) okEnv
      TrustState.uninitialized (some "/ca.pem") APR_LDAP_CA_TYPE_BASE64).2.1
      (by decide)⟩

/-- C5 counterexample: OpenLDAP, BASE64 path present, and the native
`ldap_set_option(LDAP_OPT_X_TLS_CACERTFILE)` call failing with code 2:
the call returns `APR_EGENERAL` (did not cleanly succeed) but `reasonText`
is absent, refuting "reasonText is set if and only if the operation did
not cleanly succeed". -/
theorem apr_ldap_ssl_init_reason_iff_counterexample :
    (apr_ldap_ssl_init (fullCfg Toolkit.openldap)
      { okEnv with setOptionCacertRC := 2 } TrustState.uninitialized
      (some "/ca.pem") APR_LDAP_CA_TYPE_BASE64).ret = APR_EGENERAL ∧
    (apr_ldap_ssl_init (fullCfg Toolkit.openldap)
      { okEnv with setOptionCacertRC := 2 } TrustState.uninitialized
      (some "/ca.pem") APR_LDAP_CA_TYPE_BASE64).result.reason = none :=
  ⟨by decide, by decide⟩

/-- C6 (amended): on every call that does not take one of the early
`return` statements (the unsupported-operation paths and the OpenLDAP
hard-TLS mode-option failure), `apr_ldap_init` returns
`apr_get_os_error()` when the final handle is absent and `APR_SUCCESS`
when it is present (lines 332-341).  The claim's universal form fails on
the early-return paths; see the counterexample. -/
theorem apr_ldap_init_final_check (cfg : BuildConfig) (env : Env)
    (ldap0 : Option Nat) (hostname : String) (portno : Int) (secure : Bool)
    (h : takesEarlyReturn cfg env secure = false) :
    ((apr_ldap_init cfg env ldap0 hostname portno secure).handle = none →
      (apr_ldap_init cfg env ldap0 hostname portno secure).ret = env.osError) ∧
    (∀ hd, (apr_ldap_init cfg env ldap0 hostname portno secure).handle = some hd →
      (apr_ldap_init cfg env ldap0 hostname portno secure).ret = APR_SUCCESS) := by
  rcases cfg with ⟨ssl, tk, a1, a2, a3, a4, a5, a6, a7, a8⟩
  unfold takesEarlyReturn at h
  unfold apr_ldap_init openPhase
  cases secure <;> cases ssl <;> cases tk <;>
    cases hh : env.ldapInitHandle <;>
    cases hs1 : env.ldapsslInitHandle <;>
    cases hs2 : env.ldapSslinitHandle <;>
    cases hl : ldap0 <;>
    simp_all [mkErr]

/-- C6 witness: a plain (non-secure) connect whose `ldap_init` returns no
handle surfaces the OS error 111. -/
theorem apr_ldap_init_final_check_witness :
    takesEarlyReturn (fullCfg Toolkit.openldap)
      { okEnv with ldapInitHandle := none } false = false ∧
    (apr_ldap_init (fullCfg Toolkit.openldap) { okEnv with ldapInitHandle := none }
      none "ldap.example.org" 389 false).handle = none ∧
    (apr_ldap_init (fullCfg Toolkit.openldap) { okEnv with ldapInitHandle := none }
      none "ldap.example.org" 389 false).ret =
      ({ okEnv with ldapInitHandle := none } : Env).osError :=
  ⟨by decide, by decide,
    (apr_ldap_init_final_check (fullCfg Toolkit.openldap)
      { okEnv with ldapInitHandle := none } none "ldap.example.org" 389 false
      (by decide)).1 (by decide)⟩

/-- C6 counterexample: the OpenLDAP hard-TLS mode-option failure leaves the
handle absent yet returns `APR_EGENERAL`, not the OS's last error (111
here), refuting the claim's "for every variant and every call" form. -/
theorem apr_ldap_init_final_check_counterexample :
    (apr_ldap_init (fullCfg Toolkit.openldap) { okEnv with setOptionTlsRC := 2 }
      none "ldap.example.org" 636 true).handle = none ∧
    (apr_ldap_init (fullCfg Toolkit.openldap) { okEnv with setOptionTlsRC := 2 }
      none "ldap.example.org" 636 true).ret = APR_EGENERAL ∧
    (apr_ldap_init (fullCfg Toolkit.openldap) { okEnv with setOptionTlsRC := 2 }
      none "ldap.example.org" 636 true).ret ≠
      ({ okEnv with setOptionTlsRC := 2 } : Env).osError :=
  ⟨by decide, by decide, by decide⟩

/-- C7: `apr_ldap_ssl_deinit` always returns `APR_SUCCESS`, is idempotent
on the trust-store state, tears any state down to `Uninitialized` whenever
the build has the native deinit capability, and trivially preserves
`Uninitialized` otherwise.  (Without that capability the Novell
certificate block is compiled out as well — see
`sslInitBody_state_const_without_deinit` — so no reachable state is ever
anything but `Uninitialized` in such builds.) -/
theorem apr_ldap_ssl_deinit_idempotent (cfg : BuildConfig) (st : TrustState) :
    (apr_ldap_ssl_deinit cfg st).ret = APR_SUCCESS ∧
    (apr_ldap_ssl_deinit cfg (apr_ldap_ssl_deinit cfg st).state).state =
      (apr_ldap_ssl_deinit cfg st).state ∧
    ((cfg.hasLdapSsl && cfg.novellHasClientDeinit) = true →
      (apr_ldap_ssl_deinit cfg st).state = TrustState.uninitialized) ∧
    (st = TrustState.uninitialized →
      (apr_ldap_ssl_deinit cfg st).state = TrustState.uninitialized) := by
  unfold apr_ldap_ssl_deinit
  split <;> simp_all

/-- a build without the native client-deinit capability compiles out the
whole Novell certificate block, so `apr_ldap_ssl_init` never moves the
trust-store state in such a build: every reachable state is the one the
process started in, `Uninitialized`. -/
theorem sslInitBody_state_const_without_deinit (cfg : BuildConfig) (env : Env)
    (st : TrustState) (f : Option String) (t : Int)
    (h : cfg.novellHasClientDeinit = false) :
    (sslInitBody cfg env st f t).state = st := by
  rcases cfg with ⟨ssl, tk, a1, a2, a3, a4, a5, a6, a7, a8⟩
  simp only at h
  unfold sslInitBody
  cases ssl <;> cases tk <;> cases f <;>
    simp_all [mkBody, mkErr] <;> split_ifs <;> simp_all

/-- C7 witness: tearing down a loaded Novell store, twice. -/
theorem apr_ldap_ssl_deinit_idempotent_witness :
    ((fullCfg Toolkit.novell).hasLdapSsl &&
      (fullCfg Toolkit.novell).novellHasClientDeinit) = true ∧
    (apr_ldap_ssl_deinit (fullCfg Toolkit.novell)
      (TrustState.certsLoaded 2)).state = TrustState.uninitialized ∧
    (apr_ldap_ssl_deinit (fullCfg Toolkit.novell)
      (apr_ldap_ssl_deinit (fullCfg Toolkit.novell)
        (TrustState.certsLoaded 2)).state).state =
      (apr_ldap_ssl_deinit (fullCfg Toolkit.novell)
        (TrustState.certsLoaded 2)).state :=
  ⟨by decide,
    (apr_ldap_ssl_deinit_idempotent (fullCfg Toolkit.novell)
      (TrustState.certsLoaded 2)).2.2.1 (by decide),
    (apr_ldap_ssl_deinit_idempotent (fullCfg Toolkit.novell)
      (TrustState.certsLoaded 2)).2.1⟩

/-- C8: on the Microsoft variant of an SSL build, `apr_ldap_ssl_init`
always succeeds with `rc = LDAP_SUCCESS`, no reason, no native call
(registry store, lines 171-177), and its outcome is independent of the
certificate path and encoding arguments. -/
theorem apr_ldap_ssl_init_microsoft_always_success (cfg : BuildConfig) (env : Env)
    (st : TrustState) (f : Option String) (t : Int)
    (hssl : cfg.hasLdapSsl = true) (htk : cfg.toolkit = Toolkit.microsoft) :
    apr_ldap_ssl_init cfg env st f t =
      { result := mkErr LDAP_SUCCESS (some (env.err2string LDAP_SUCCESS)) none,
        ret := APR_SUCCESS, calls := [], state := st } ∧
    ∀ f2 t2, apr_ldap_ssl_init cfg env st f t = apr_ldap_ssl_init cfg env st f2 t2 := by
  constructor
  · simp [apr_ldap_ssl_init, sslInitBody, hssl, htk, mkBody, mkErr, LDAP_SUCCESS,
      APR_SUCCESS]
  · intro f2 t2
    simp [apr_ldap_ssl_init, sslInitBody, hssl, htk, mkBody, mkErr]

/-- C8 witness: a Microsoft SSL build with a path and DER encoding. -/
theorem apr_ldap_ssl_init_microsoft_always_success_witness :
    (fullCfg Toolkit.microsoft).hasLdapSsl = true ∧
    (apr_ldap_ssl_init (fullCfg Toolkit.microsoft) okEnv TrustState.uninitialized
        (some "/ca.pem") APR_LDAP_CA_TYPE_DER =
      { result := mkErr LDAP_SUCCESS (some (okEnv.err2string LDAP_SUCCESS)) none,
        ret := APR_SUCCESS, calls := [], state := TrustState.uninitialized } ∧
      ∀ f2 t2, apr_ldap_ssl_init (fullCfg Toolkit.microsoft) okEnv
          TrustState.uninitialized (some "/ca.pem") APR_LDAP_CA_TYPE_DER =
        apr_ldap_ssl_init (fullCfg Toolkit.microsoft) okEnv
          TrustState.uninitialized f2 t2) :=
  ⟨by decide,
    apr_ldap_ssl_init_microsoft_always_success (fullCfg Toolkit.microsoft) okEnv
      TrustState.uninitialized (some "/ca.pem") APR_LDAP_CA_TYPE_DER
      (by decide) (by decide)⟩

/-- C9: `apr_ldap_ssl_init` returns only `APR_SUCCESS` or `APR_EGENERAL`,
decided exactly by whether the final `rc` equals `LDAP_SUCCESS`; it never
returns `APR_ENOTIMPL`, and capability gaps (SolarisStyle / Unrecognized
with a path, in an SSL build) surface as `rc = -1` with `APR_EGENERAL`. -/
theorem apr_ldap_ssl_init_status_domain (cfg : BuildConfig) (env : Env)
    (st : TrustState) (f : Option String) (t : Int) :
    ((apr_ldap_ssl_init cfg env st f t).ret = APR_SUCCESS ∨
      (apr_ldap_ssl_init cfg env st f t).ret = APR_EGENERAL) ∧
    ((apr_ldap_ssl_init cfg env st f t).ret = APR_SUCCESS ↔
      (apr_ldap_ssl_init cfg env st f t).result.rc = LDAP_SUCCESS) ∧
    (apr_ldap_ssl_init cfg env st f t).ret ≠ APR_ENOTIMPL ∧
    (cfg.hasLdapSsl = true →
      (cfg.toolkit = Toolkit.solaris ∨ cfg.toolkit = Toolkit.other) →
      f.isSome = true →
      ((apr_ldap_ssl_init cfg env st f t).result.rc = -1 ∧
        (apr_ldap_ssl_init cfg env st f t).ret = APR_EGENERAL)) := by
  have hrc := apr_ldap_ssl_init_rc_eq cfg env st f t
  have hret := apr_ldap_ssl_init_ret_eq cfg env st f t
  refine ⟨?_, ?_, ?_, ?_⟩
  · rw [hret]
    split
    · right; rfl
    · left; rfl
  · rw [hret, hrc]
    split
    · rename_i hne
      exact ⟨fun hcontra => absurd hcontra (by decide), fun hz => absurd hz hne⟩
    · rename_i hz
      rw [not_not] at hz
      exact ⟨fun _ => hz, fun _ => rfl⟩
  · rw [hret]
    split
    · decide
    · decide
  · intro hssl htk hf
    cases f with
    | none => simp at hf
    | some file =>
      have hrcv : (sslInitBody cfg env st (some file) t).result.rc = -1 := by
        rcases htk with h | h <;> simp [sslInitBody, hssl, h, mkBody, mkErr]
      refine ⟨by rw [hrc]; exact hrcv, ?_⟩
      rw [hret, hrcv]
      decide

/-- C9 witness: a SolarisStyle SSL build given a certificate path. -/
theorem apr_ldap_ssl_init_status_domain_witness :
    (fullCfg Toolkit.solaris).hasLdapSsl = true ∧
    (some "/ca.pem" : Option String).isSome = true ∧
    ((apr_ldap_ssl_init (fullCfg Toolkit.solaris) okEnv TrustState.uninitialized
        (some "/ca.pem") APR_LDAP_CA_TYPE_DER).result.rc = -1 ∧
      (apr_ldap_ssl_init (fullCfg Toolkit.solaris) okEnv TrustState.uninitialized
        (some "/ca.pem") APR_LDAP_CA_TYPE_DER).ret = APR_EGENERAL) :=
  ⟨by decide, by decide,
    (apr_ldap_ssl_init_status_domain (fullCfg Toolkit.solaris) okEnv
      TrustState.uninitialized (some "/ca.pem") APR_LDAP_CA_TYPE_DER).2.2.2
      (by decide) (Or.inl (by decide)) (by decide)⟩

/-- C10: on every variant except Novell, an initialization-only call
(`cert_auth_file = NULL`) succeeds with `rc = LDAP_SUCCESS`, a decoded
`msg`, no reason, no native call, and an unchanged trust-store state —
for every encoding and whether or not SSL support is compiled in. -/
theorem apr_ldap_ssl_init_no_cert_success (cfg : BuildConfig) (env : Env)
    (st : TrustState) (t : Int) (htk : cfg.toolkit ≠ Toolkit.novell) :
    apr_ldap_ssl_init cfg env st none t =
      { result := mkErr LDAP_SUCCESS (some (env.err2string LDAP_SUCCESS)) none,
        ret := APR_SUCCESS, calls := [], state := st } := by
  rcases cfg with ⟨ssl, tk, a1, a2, a3, a4, a5, a6, a7, a8⟩
  simp only [ne_eq] at htk
  cases ssl <;> cases tk <;>
    simp_all [apr_ldap_ssl_init, sslInitBody, mkBody, mkErr, LDAP_SUCCESS,
      APR_SUCCESS]

/-- C10 witness: a no-SSL SolarisStyle build, initialization-only call with
the DER encoding argument. -/
theorem apr_ldap_ssl_init_no_cert_success_witness :
    (noSslCfg Toolkit.solaris).toolkit ≠ Toolkit.novell ∧
    apr_ldap_ssl_init (noSslCfg Toolkit.solaris) okEnv TrustState.uninitialized
        none APR_LDAP_CA_TYPE_DER =
      { result := mkErr LDAP_SUCCESS (some (okEnv.err2string LDAP_SUCCESS)) none,
        ret := APR_SUCCESS, calls := [], state := TrustState.uninitialized } :=
  ⟨by decide,
    apr_ldap_ssl_init_no_cert_success (noSslCfg Toolkit.solaris) okEnv
      TrustState.uninitialized APR_LDAP_CA_TYPE_DER (by decide)⟩
